import Mathlib

/-!
Verification of the quiz-grading and course-progress core of the
impulsetech learning-management application.

The grading routine is `submitQuiz` in `src/app/services/course.service.ts`
(score loop, percentage, pass flag), the progress routine is
`updateCourseProgress` in the same file, quiz persistence is
`createQuiz` / `updateQuiz`, lesson completion is `completeLesson` /
`getLessonCompletion`, and the student component's per-question display
grading is `getQuestionPoints` in `student.component.ts`.

JavaScript runtime values that the TypeScript type `string | number`
ranges over are embedded as `JsVal` (an integer, the floating-point
`NaN` produced by `parseInt`, or a string).  The only number arithmetic
the code performs is `Math.round((a / b) * 100)` on integer-valued
doubles; it is embedded by simulating IEEE-754 binary64 arithmetic
exactly over the rationals: `fl64` rounds an exact rational to the
nearest double (round to nearest, ties to even; the exponent is
unbounded, which is faithful because every value these routines produce
lies far inside the normal range, and the integer inputs are far below
2^53 and hence exactly representable), each `/` and `*` rounds its exact
result with `fl64`, and `Math.round` takes the floor of the double's
exact value plus one half, as the ECMAScript specification prescribes.
The tie cases where this differs from exact rational rounding — for
example 23/40, where the double value of `(23/40)*100` is just below
57.5 and `Math.round` yields 57 while exact round-half-up yields 58 —
are reproduced by the model.  The special values `NaN` / `Infinity`
arising from division by zero are carried explicitly by `JsNum`.  A
thrown `TypeError` is embedded as `Option.none`.  String operations
(`toLowerCase`, `trim`) are modelled on the ASCII fragment exercised by
the application.
-/

namespace ImpulseTech

/-- A JavaScript value of TypeScript type `string | number` as the quiz
code manipulates it: an integral number, the number `NaN` (the result of
`parseInt` on an unparseable string), or a string. -/
inductive JsVal where
  | num (n : Int)
  | nan
  | str (s : String)
deriving DecidableEq, Repr

/-- JavaScript strict equality (the operator written with three equal
signs) restricted to `JsVal`: values of different types are never equal,
and `NaN` is not equal to anything, itself included. -/
def jsStrictEq : JsVal → JsVal → Bool
  | .num a, .num b => a == b
  | .str a, .str b => a == b
  | _, _ => false

/-- JavaScript `toString()` on a `JsVal`.  An integral number prints in
decimal, `NaN` prints as `"NaN"`, a string is itself. -/
def jsToString : JsVal → String
  | .num n => toString n
  | .nan => "NaN"
  | .str s => s

/-- JavaScript truthiness of a `JsVal`: `0`, `NaN` and the empty string
are falsy, every other number or string is truthy. -/
def jsTruthy : JsVal → Bool
  | .num n => n != 0
  | .nan => false
  | .str s => s != ""

/-- Numeric value of a hexadecimal digit. -/
def hexDigitVal (c : Char) : Nat :=
  if c.isDigit then c.toNat - 48
  else if 'a' ≤ c && c ≤ 'f' then c.toNat - 87
  else c.toNat - 55

/-- Whether a character is a hexadecimal digit. -/
def isHexDigitChar (c : Char) : Bool :=
  c.isDigit || ('a' ≤ c && c ≤ 'f') || ('A' ≤ c && c ≤ 'F')

/-- Value of a digit list under the given base and digit valuation. -/
def digitsVal (base : Nat) (val : Char → Nat) (cs : List Char) : Nat :=
  cs.foldl (fun acc c => acc * base + val c) 0

/-- JavaScript `parseInt(s)` with no radix argument: skip leading
whitespace, read an optional sign, auto-detect a `0x`/`0X` prefix as
hexadecimal, then read the longest digit prefix, ignoring trailing
characters.  `none` embeds the `NaN` returned when no digit is found. -/
def jsParseInt (s : String) : Option Int :=
  let cs := s.toList.dropWhile Char.isWhitespace
  let signAndRest : Int × List Char :=
    match cs with
    | '-' :: rest => (-1, rest)
    | '+' :: rest => (1, rest)
    | _ => (1, cs)
  let sign := signAndRest.1
  match signAndRest.2 with
  | '0' :: x :: rest =>
    if x == 'x' || x == 'X' then
      let hex := rest.takeWhile isHexDigitChar
      if hex.isEmpty then none
      else some (sign * (digitsVal 16 hexDigitVal hex : Nat))
    else
      let digits := ('0' :: x :: rest).takeWhile Char.isDigit
      some (sign * (digitsVal 10 hexDigitVal digits : Nat))
  | other =>
    let digits := other.takeWhile Char.isDigit
    if digits.isEmpty then none
    else some (sign * (digitsVal 10 hexDigitVal digits : Nat))

/-- The two values of the `QuizQuestion.type` union
(`'multiple-choice' | 'text'`). -/
inductive QType where
  | multipleChoice
  | text
deriving DecidableEq, Repr

/-- The `QuizQuestion` interface of `course.service.ts`.  `id` is the
optional document identifier; `correctAnswer` has TypeScript type
`string | number` (an option index for multiple choice, the expected
answer for text); `points` is the question's point value.  The dates and
the option labels play no role in grading and are omitted. -/
structure QuizQuestion where
  id : Option String
  question : String
  options : List String
  correctAnswer : JsVal
  points : Int
  qtype : QType
deriving DecidableEq, Repr

/-- The `Quiz` interface of `course.service.ts`, restricted to the fields
grading reads: the ordered questions, the stored `totalPoints`, and the
`passingScore` percentage threshold. -/
structure Quiz where
  courseId : String
  title : String
  description : String
  questions : List QuizQuestion
  totalPoints : Int
  passingScore : Int
  isActive : Bool
deriving DecidableEq, Repr

/-- A submission's `answers : Record<string, string | number>` object,
embedded as an association list; a key absent from the list is the
JavaScript `undefined` read. -/
def lookupAnswer (answers : List (String × JsVal)) (key : String) : Option JsVal :=
  (answers.find? (fun p => p.1 == key)).map Prod.snd

/-- The lookup key of a question: `question.id || index.toString()`.
JavaScript `||` falls through on every falsy value, so both a missing
`id` and an empty-string `id` yield the positional index. -/
def questionKey (q : QuizQuestion) (index : Nat) : String :=
  match q.id with
  | some s => if s == "" then toString index else s
  | none => toString index

/-- One iteration of the scoring loop of `submitQuiz`
(course.service.ts lines 519-534), returning the points the question
contributes.  Multiple choice compares the looked-up answer against
`question.correctAnswer` with strict equality (an `undefined` answer is
simply unequal).  The text branch calls `studentAnswer.toString()`, which
throws a `TypeError` when the answer is `undefined`; the throw is
embedded as `none`. -/
def serviceQuestionPoints (answers : List (String × JsVal)) (q : QuizQuestion)
    (index : Nat) : Option Int :=
  let studentAnswer := lookupAnswer answers (questionKey q index)
  match q.qtype with
  | .multipleChoice =>
    match studentAnswer with
    | some v => if jsStrictEq v q.correctAnswer then some q.points else some 0
    | none => some 0
  | .text =>
    match studentAnswer with
    | none => none
    | some v =>
      if (jsToString v).toLower.trim == (jsToString q.correctAnswer).toLower.trim
      then some q.points else some 0

/-- The `forEach` accumulation of `score` in `submitQuiz`, threading the
question index.  A `TypeError` thrown at any question aborts the whole
call, hence the `Option`. -/
def scoreQuiz (qs : List QuizQuestion) (answers : List (String × JsVal))
    (index : Nat) : Option Int :=
  match qs with
  | [] => some 0
  | q :: rest =>
    match serviceQuestionPoints answers q index with
    | none => none
    | some p =>
      match scoreQuiz rest answers (index + 1) with
      | none => none
      | some s => some (p + s)

/-- Round a rational to the nearest integer with ties to even: the
rounding applied to every arithmetic result by IEEE-754 binary64. -/
def roundNearestEven (x : ℚ) : ℤ :=
  if x - (⌊x⌋ : ℚ) < 1/2 then ⌊x⌋
  else if (1:ℚ)/2 < x - (⌊x⌋ : ℚ) then ⌊x⌋ + 1
  else if ⌊x⌋ % 2 = 0 then ⌊x⌋ else ⌊x⌋ + 1

/-- Round a rational to the nearest IEEE-754 binary64 value (round to
nearest, ties to even), with an unbounded exponent: for a nonzero
input, the significand is the nearest-even integer of the input scaled
into `[2^52, 2^53)` by its binade `Int.log 2`, and the sign is carried
separately.  Overflow and subnormal rounding are not modelled; every
value the percentage routines produce is far inside the normal range. -/
def fl64 (x : ℚ) : ℚ :=
  if x = 0 then 0
  else if x < 0 then
    -((roundNearestEven (-x * (2:ℚ) ^ (52 - Int.log 2 (-x))) : ℚ) *
      (2:ℚ) ^ (Int.log 2 (-x) - 52))
  else
    (roundNearestEven (x * (2:ℚ) ^ (52 - Int.log 2 x)) : ℚ) *
      (2:ℚ) ^ (Int.log 2 x - 52)

/-- A JavaScript number as the percentage computation can produce it:
an integral value, `NaN` (from `0 / 0`), or a signed infinity (from
division of a nonzero value by zero). -/
inductive JsNum where
  | val (n : Int)
  | nan
  | inf
  | negInf
deriving DecidableEq, Repr

/-- Embeds `Math.round(a / b)` for integers `a`, `b` with `b ≠ 0`, under exact
rational semantics: JavaScript rounds half toward positive infinity,
which is `floor (a / b + 1 / 2) = (2 a + b) fdiv (2 b)`. -/
def jsRoundHalfUp (a b : Int) : Int :=
  Int.fdiv (2 * a + b) (2 * b)

/-- Embeds `Math.round((score / quiz.totalPoints) * 100)` in binary64:
the division and the multiplication each round their exact result with
`fl64`, and `Math.round` is the floor of the double's exact value plus
one half (Mathlib's `round`).  Division by a zero total follows
JavaScript: `0 / 0` is `NaN`, a nonzero score over zero is a signed
infinity, and `Math.round` is the identity on those. -/
def computePercentage (score totalPoints : Int) : JsNum :=
  if totalPoints = 0 then
    if score = 0 then JsNum.nan
    else if 0 < score then JsNum.inf
    else JsNum.negInf
  else
    JsNum.val (round (fl64 (fl64 ((score : ℚ) / (totalPoints : ℚ)) * 100)))

/-- The comparison `percentage >= quiz.passingScore`: `NaN` compares
false, positive infinity compares true. -/
def jsGe (p : JsNum) (threshold : Int) : Bool :=
  match p with
  | .val n => threshold ≤ n
  | .nan => false
  | .inf => true
  | .negInf => false

/-- The graded fields of a `QuizSubmission` record: `score`,
`percentage`, `isPassed`. -/
structure GradingResult where
  score : Int
  percentage : JsNum
  isPassed : Bool
deriving DecidableEq, Repr

/-- The grading computation of `submitQuiz` (course.service.ts lines
519-537): accumulate the score over the questions, derive the percentage
and the pass flag.  `none` embeds the `TypeError` thrown by the text
branch on a missing answer. -/
def submitQuizGrade (quiz : Quiz) (answers : List (String × JsVal)) :
    Option GradingResult :=
  match scoreQuiz quiz.questions answers 0 with
  | none => none
  | some score =>
    let percentage := computePercentage score quiz.totalPoints
    some { score := score, percentage := percentage
           isPassed := jsGe percentage quiz.passingScore }

/-- Embeds `typeof question.correctAnswer === 'number' ? question.correctAnswer :
parseInt(question.correctAnswer.toString())` from the student
component.  `none` embeds `NaN` (both a `NaN` number and an unparseable
string produce it). -/
def answerAsNumber : JsVal → Option Int
  | .num n => some n
  | .nan => none
  | .str s => jsParseInt s

/-- Embeds `typeof studentAnswer === 'number' ? studentAnswer : (studentAnswer ?
parseInt(studentAnswer.toString()) : -1)` from the student component: a
number passes through (`NaN` included), a falsy value (missing answer or
empty string) becomes `-1`, a nonempty string is parsed. -/
def studentAnswerAsNumber : Option JsVal → Option Int
  | some (.num n) => some n
  | some .nan => none
  | some (.str s) => if s == "" then some (-1) else jsParseInt s
  | none => some (-1)

/-- Strict equality of two possibly-`NaN` numbers: `NaN` on either side
compares false. -/
def optNumEq : Option Int → Option Int → Bool
  | some a, some b => a == b
  | _, _ => false

/-- Function `getQuestionPoints` of `student.component.ts` (lines 323-347): the
student-facing per-question points display.  Multiple choice coerces
both sides to numbers before comparing; text returns 0 on a falsy
answer, otherwise compares lower-cased trimmed strings. -/
def getQuestionPoints (answers : List (String × JsVal)) (q : QuizQuestion)
    (index : Nat) : Int :=
  let studentAnswer := lookupAnswer answers (questionKey q index)
  match q.qtype with
  | .multipleChoice =>
    if optNumEq (studentAnswerAsNumber studentAnswer) (answerAsNumber q.correctAnswer)
    then q.points else 0
  | .text =>
    match studentAnswer with
    | none => 0
    | some v =>
      if jsTruthy v then
        if (jsToString v).toLower.trim == (jsToString q.correctAnswer).toLower.trim
        then q.points else 0
      else 0

/-- Embeds `quiz.questions.reduce((sum, q) => sum + q.points, 0)`, the total
points computation shared by `createQuiz` and `updateQuiz`. -/
def sumPoints (qs : List QuizQuestion) : Int :=
  qs.foldl (fun sum q => sum + q.points) 0

/-- The argument of `createQuiz`: a quiz with `id`, the dates and
`totalPoints` omitted. -/
structure QuizInput where
  courseId : String
  title : String
  description : String
  questions : List QuizQuestion
  passingScore : Int
  isActive : Bool
deriving DecidableEq, Repr

/-- Function `createQuiz` (course.service.ts lines 431-444): the stored document
carries the given fields plus `totalPoints` computed from the given
questions. -/
def createQuiz (input : QuizInput) : Quiz :=
  { courseId := input.courseId, title := input.title
    description := input.description, questions := input.questions
    totalPoints := sumPoints input.questions
    passingScore := input.passingScore, isActive := input.isActive }

/-- The argument of `updateQuiz`: `Partial<Omit<Quiz, 'id' |
'totalPoints'>>`, each field optionally present. -/
structure QuizUpdate where
  title : Option String
  description : Option String
  questions : Option (List QuizQuestion)
  passingScore : Option Int
  isActive : Option Bool
deriving DecidableEq, Repr

/-- Function `updateQuiz` (course.service.ts lines 447-460) applied to the stored
document: present fields overwrite, and when `updates.questions` is
present (any array, the empty one included, is truthy) `totalPoints` is
recomputed from the new questions. -/
def updateQuiz (quiz : Quiz) (updates : QuizUpdate) : Quiz :=
  let merged : Quiz :=
    { quiz with
      title := updates.title.getD quiz.title
      description := updates.description.getD quiz.description
      passingScore := updates.passingScore.getD quiz.passingScore
      isActive := updates.isActive.getD quiz.isActive }
  match updates.questions with
  | some qs => { merged with questions := qs, totalPoints := sumPoints qs }
  | none => merged

/-- A stored enrollment document: the fields `updateCourseProgress`
reads and writes. -/
structure Enrollment where
  id : String
  courseId : String
  studentId : String
  studentName : String
  progress : Int
deriving DecidableEq, Repr

/-- A stored lesson document, restricted to the `courseId` the progress
query filters on. -/
structure LessonDoc where
  id : String
  courseId : String
deriving DecidableEq, Repr

/-- A stored `lessonCompletions` document. -/
structure LessonCompletion where
  id : String
  lessonId : String
  courseId : String
  studentId : String
deriving DecidableEq, Repr

/-- The slice of the Firestore database the completion and progress
routines touch. -/
structure Store where
  enrollments : List Enrollment
  lessons : List LessonDoc
  completions : List LessonCompletion
deriving DecidableEq, Repr

/-- Function `getEnrollment`: the first document matching the
`courseId == ... && studentId == ...` query, if any. -/
def getEnrollment (st : Store) (courseId studentId : String) : Option Enrollment :=
  st.enrollments.find? (fun e => e.courseId == courseId && e.studentId == studentId)

/-- The `lessonsSnapshot.size` count of the lessons query in
`updateCourseProgress`. -/
def countLessons (st : Store) (courseId : String) : Nat :=
  (st.lessons.filter (fun l => l.courseId == courseId)).length

/-- The `completionsSnapshot.size` count of the completions query in
`updateCourseProgress`. -/
def countCompletions (st : Store) (courseId studentId : String) : Nat :=
  (st.completions.filter
    (fun c => c.courseId == courseId && c.studentId == studentId)).length

/-- Function `updateProgress`: write the given progress value onto the enrollment
document with the given id. -/
def updateProgress (st : Store) (enrollmentId : String) (progress : Int) : Store :=
  { st with
    enrollments := st.enrollments.map
      (fun e => if e.id == enrollmentId then { e with progress := progress } else e) }

/-- Embeds `Math.round((completedLessons / totalLessons) * 100)`, the
progress expression of `updateCourseProgress` (only reached when
`totalLessons ≠ 0`), in binary64: division and multiplication each
round with `fl64`, then `Math.round` takes the floor of the exact value
plus one half. -/
def progressPercent (completedLessons totalLessons : Nat) : Int :=
  round (fl64 (fl64 ((completedLessons : ℚ) / (totalLessons : ℚ)) * 100))

/-- Function `updateCourseProgress` (course.service.ts lines 398-426) as a store
transformer: missing enrollment returns unchanged; zero lessons returns
unchanged; otherwise the rounded percentage is written onto the
enrollment. -/
def updateCourseProgress (st : Store) (courseId studentId : String) : Store :=
  match getEnrollment st courseId studentId with
  | none => st
  | some enrollment =>
    if countLessons st courseId = 0 then st
    else
      updateProgress st enrollment.id
        (progressPercent (countCompletions st courseId studentId)
          (countLessons st courseId))

/-- Function `getLessonCompletion`: the first completion document matching the
`lessonId == ... && studentId == ...` query, if any. -/
def getLessonCompletion (st : Store) (lessonId studentId : String) :
    Option LessonCompletion :=
  st.completions.find? (fun c => c.lessonId == lessonId && c.studentId == studentId)

/-- Function `completeLesson` (course.service.ts lines 332-356): if a completion
for the (lesson, student) pair already exists its id is returned and
nothing is written; otherwise a new completion document is added (with
the Firestore-generated id passed in as `freshId`), the course progress
is recomputed, and the new id is returned. -/
def completeLesson (st : Store) (lessonId courseId studentId freshId : String) :
    String × Store :=
  match getLessonCompletion st lessonId studentId with
  | some existing => (existing.id, st)
  | none =>
    let st' := { st with
      completions := st.completions ++
        [{ id := freshId, lessonId := lessonId, courseId := courseId
           studentId := studentId }] }
    (freshId, updateCourseProgress st' courseId studentId)

/-- The property that a JavaScript percentage is an integral value
between 0 and 100 (so in particular neither `NaN` nor an infinity). -/
def percentInRange : JsNum → Prop
  | .val n => 0 ≤ n ∧ n ≤ 100
  | .nan => False
  | .inf => False
  | .negInf => False

/-! Concrete sample data used by witnesses and counterexamples. -/

/-- A multiple-choice question whose stored correct answer is the
number 2, worth 5 points. -/
def mcQuestion2 : QuizQuestion :=
  { id := some ("q1"), question := "Pick the third option"
    options := ["a", "b", "c"], correctAnswer := JsVal.num 2
    points := 5, qtype := QType.multipleChoice }

/-- A free-text question whose stored correct answer is the string
`paris`, worth 5 points. -/
def parisQuestion : QuizQuestion :=
  { id := some ("t1"), question := "Capital of France"
    options := [], correctAnswer := JsVal.str ("paris")
    points := 5, qtype := QType.text }

/-- A quiz holding only the free-text question. -/
def parisQuiz : Quiz :=
  { courseId := "c1", title := "Geo", description := ""
    questions := [parisQuestion], totalPoints := 5
    passingScore := 60, isActive := true }

/-- A quiz with no questions and a stored total of 0 points. -/
def zeroQuiz : Quiz :=
  { courseId := "c1", title := "Empty", description := ""
    questions := [], totalPoints := 0, passingScore := 60, isActive := true }

/-- The grading record the zero-total quiz produces. -/
def zeroQuizResult : GradingResult :=
  { score := 0, percentage := JsNum.nan, isPassed := false }

/-- First question of the spec's worked example: 5 points, correct
option 0. -/
def exQ1 : QuizQuestion :=
  { id := some ("q1"), question := "one"
    options := ["a", "b"], correctAnswer := JsVal.num 0
    points := 5, qtype := QType.multipleChoice }

/-- Second question of the spec's worked example: 5 points, correct
option 1. -/
def exQ2 : QuizQuestion :=
  { id := some ("q2"), question := "two"
    options := ["a", "b"], correctAnswer := JsVal.num 1
    points := 5, qtype := QType.multipleChoice }

/-- The spec's worked example quiz: two questions of 5 points each,
total 10, passing score 60. -/
def exampleQuiz : Quiz :=
  { courseId := "c1", title := "Example", description := ""
    questions := [exQ1, exQ2], totalPoints := 10
    passingScore := 60, isActive := true }

/-- A submission to the example quiz that answers question 1 correctly
and question 2 incorrectly. -/
def exampleAnswers : List (String × JsVal) :=
  [(("q1" : String), JsVal.num 0), (("q2" : String), JsVal.num 0)]

/-- The grading record of the example submission. -/
def exampleResult : GradingResult :=
  { score := 5, percentage := JsNum.val 50, isPassed := false }

/-- A 23-point multiple-choice question (correct option 0) of the
tie-rounding quiz. -/
def tieQ1 : QuizQuestion :=
  { id := some ("q1"), question := "first"
    options := ["a", "b"], correctAnswer := JsVal.num 0
    points := 23, qtype := QType.multipleChoice }

/-- A 17-point multiple-choice question (correct option 1) of the
tie-rounding quiz. -/
def tieQ2 : QuizQuestion :=
  { id := some ("q2"), question := "second"
    options := ["a", "b"], correctAnswer := JsVal.num 1
    points := 17, qtype := QType.multipleChoice }

/-- A quiz worth 40 points with passing score 58: a score of 23 makes
`(score / totalPoints) * 100` a binary64 value just below 57.5, where
`Math.round` and exact round-half-up disagree. -/
def tieQuiz : Quiz :=
  { courseId := "c1", title := "Tie", description := ""
    questions := [tieQ1, tieQ2], totalPoints := 40
    passingScore := 58, isActive := true }

/-- A submission to the tie quiz answering only the 23-point question
correctly. -/
def tieAnswers : List (String × JsVal) :=
  [(("q1" : String), JsVal.num 0), (("q2" : String), JsVal.num 0)]

/-- The grading record the tie submission produces: percentage 57 (the
binary64 value of 57.5 rounds down), not the 58 of exact round-half-up,
so the pass flag at threshold 58 is false. -/
def tieResult : GradingResult :=
  { score := 23, percentage := JsNum.val 57, isPassed := false }

/-- A submission answering the multiple-choice question with the
number 2 (both sides numeric). -/
def agreeAnswers : List (String × JsVal) :=
  [(("q1" : String), JsVal.num 2)]

/-- Input for creating a quiz from the two example questions. -/
def sampleQuizInput : QuizInput :=
  { courseId := "c1", title := "T", description := ""
    questions := [exQ1, exQ2], passingScore := 60, isActive := true }

/-- A stored quiz satisfying the total-points invariant. -/
def sampleQuiz : Quiz := createQuiz sampleQuizInput

/-- An update that replaces the question set (and retitles the quiz). -/
def sampleUpdate : QuizUpdate :=
  { title := some ("New"), description := none
    questions := some [exQ1], passingScore := none, isActive := none }

/-- An enrollment with a previously stored progress of 37. -/
def enrA : Enrollment :=
  { id := "e1", courseId := "course1", studentId := "stu1"
    studentName := "Stu", progress := 37 }

/-- An existing completion record for lesson l1 by student stu1. -/
def compA : LessonCompletion :=
  { id := "comp1", lessonId := "l1", courseId := "course1"
    studentId := "stu1" }

/-- A store where the course has two lessons, one completed. -/
def storeWithLessons : Store :=
  { enrollments := [enrA]
    lessons := [{ id := "l1", courseId := "course1" },
                { id := "l2", courseId := "course1" }]
    completions := [compA] }

/-- A store where the course has no lessons but a stale completion and a
stored progress value. -/
def storeNoLessons : Store :=
  { enrollments := [enrA], lessons := [], completions := [compA] }

/-! Helper lemmas. -/

/-- The integer embedding of `Math.round(a / b)` agrees with the
mathematical round-half-up of the exact rational quotient whenever the
denominator is positive. -/
theorem jsRoundHalfUp_eq_round (a b : Int) (hb : 0 < b) :
    jsRoundHalfUp a b = round ((a : ℚ) / (b : ℚ)) := by
  have h2b : (0:Int) ≤ 2 * b := by linarith
  rw [round_eq, jsRoundHalfUp, Int.fdiv_eq_ediv _ h2b]
  have hbq : ((b : ℚ)) ≠ 0 := by exact_mod_cast hb.ne'
  have hx : (a : ℚ) / (b : ℚ) + 1 / 2 =
      ((2 * a + b : ℤ) : ℚ) / (((2 * b).toNat : ℕ) : ℚ) := by
    have h3 : (((2 * b).toNat : ℕ) : ℚ) = ((2 * b : ℤ) : ℚ) := by
      exact_mod_cast congrArg (fun z : ℤ => (z : ℚ)) (Int.toNat_of_nonneg h2b)
    rw [h3]
    push_cast
    field_simp
    ring
  rw [hx, Rat.floor_intCast_div_natCast, Int.toNat_of_nonneg h2b]

/-- Monotonicity of round-half-up over the rationals. -/
theorem round_le_round_of_le {x y : ℚ} (h : x ≤ y) : round x ≤ round y := by
  rw [round_eq, round_eq]
  exact Int.floor_le_floor (by linarith)

/-- The left fold of `reduce((sum, q) => sum + q.points, 0)` shifted to an
arbitrary initial accumulator. -/
theorem foldl_points_init (qs : List QuizQuestion) (i : Int) :
    qs.foldl (fun sum q => sum + q.points) i = i + sumPoints qs := by
  induction qs generalizing i with
  | nil => simp [sumPoints]
  | cons q rest ih =>
    simp only [sumPoints, List.foldl_cons]
    rw [ih (i + q.points), ih (0 + q.points)]
    ring

/-- Unfolding of the total-points sum over a nonempty question list. -/
theorem sumPoints_cons (q : QuizQuestion) (rest : List QuizQuestion) :
    sumPoints (q :: rest) = q.points + sumPoints rest := by
  calc sumPoints (q :: rest)
      = List.foldl (fun sum q => sum + q.points) (0 + q.points) rest := rfl
    _ = (0 + q.points) + sumPoints rest := foldl_points_init rest (0 + q.points)
    _ = q.points + sumPoints rest := by ring

/-- A question contributes either its own point value or nothing: the
scoring loop awards no partial credit. -/
theorem serviceQuestionPoints_all_or_nothing (answers : List (String × JsVal))
    (q : QuizQuestion) (index : Nat) (p : Int)
    (h : serviceQuestionPoints answers q index = some p) :
    p = q.points ∨ p = 0 := by
  simp only [serviceQuestionPoints] at h
  split at h
  · split at h
    · split at h
      · exact Or.inl (by injection h; omega)
      · exact Or.inr (by injection h; omega)
    · exact Or.inr (by injection h; omega)
  · split at h
    · exact absurd h (by simp)
    · split at h
      · exact Or.inl (by injection h; omega)
      · exact Or.inr (by injection h; omega)

/-- The accumulated score lies between 0 and the sum of the question
point values, provided every question's point value is nonnegative. -/
theorem scoreQuiz_bounds (qs : List QuizQuestion) (answers : List (String × JsVal))
    (index : Nat) (s : Int) (hpos : ∀ q ∈ qs, 0 ≤ q.points)
    (h : scoreQuiz qs answers index = some s) :
    0 ≤ s ∧ s ≤ sumPoints qs := by
  induction qs generalizing index s with
  | nil =>
    unfold scoreQuiz at h
    injection h with h
    subst h
    simp [sumPoints]
  | cons q rest ih =>
    unfold scoreQuiz at h
    cases hq : serviceQuestionPoints answers q index with
    | none => rw [hq] at h; exact absurd h (by simp)
    | some p =>
      rw [hq] at h
      cases hr : scoreQuiz rest answers (index + 1) with
      | none => rw [hr] at h; exact absurd h (by simp)
      | some sr =>
        rw [hr] at h
        injection h with h
        subst h
        have hb := ih (index + 1) sr (fun q hm => hpos q (List.mem_cons_of_mem _ hm)) hr
        have hp := serviceQuestionPoints_all_or_nothing answers q index p hq
        have hq0 : 0 ≤ q.points := hpos q (List.mem_cons_self _ _)
        rw [sumPoints_cons]
        rcases hp with h1 | h1 <;> subst h1 <;>
          exact ⟨by linarith [hb.1], by linarith [hb.2]⟩

/-- The binade computed by `Int.log` from explicit bounds. -/
theorem int_log_eval (x : ℚ) (e : ℤ) (hx : 0 < x)
    (hlow : (2:ℚ) ^ e ≤ x) (hhigh : x < (2:ℚ) ^ (e + 1)) :
    Int.log 2 x = e := by
  have h1 : e ≤ Int.log 2 x := (Int.zpow_le_iff_le_log (by norm_num) hx).mp hlow
  have h2 : Int.log 2 x < e + 1 := (Int.lt_zpow_iff_log_lt (by norm_num) hx).mp hhigh
  omega

/-- Evaluation of nearest-even rounding when the fractional part is
strictly below one half. -/
theorem roundNE_eval_lt (x : ℚ) (f : ℤ) (hf : ⌊x⌋ = f) (h : x - f < 1/2) :
    roundNearestEven x = f := by
  unfold roundNearestEven
  rw [hf, if_pos h]

/-- Evaluation of `fl64` at a positive input from its binade and its
rounded significand. -/
theorem fl64_eval (x : ℚ) (e m : ℤ) (hx : 0 < x)
    (hlow : (2:ℚ) ^ e ≤ x) (hhigh : x < (2:ℚ) ^ (e + 1))
    (hm : roundNearestEven (x * (2:ℚ) ^ (52 - e)) = m) :
    fl64 x = (m : ℚ) * (2:ℚ) ^ (e - 52) := by
  have hlog : Int.log 2 x = e := int_log_eval x e hx hlow hhigh
  unfold fl64
  rw [if_neg hx.ne', if_neg (not_lt.mpr hx.le), hlog, hm]

/-- Evaluation of the full percentage pipeline
`Math.round(fl64(fl64(x) * 100))` from the two binades, the two rounded
significands, and the final floor. -/
theorem round_fl64_fl64_eval (x : ℚ) (e1 m1 e2 m2 r : ℤ)
    (hx : 0 < x)
    (hl1 : (2:ℚ) ^ e1 ≤ x) (hh1 : x < (2:ℚ) ^ (e1 + 1))
    (hf1 : ⌊x * (2:ℚ) ^ (52 - e1)⌋ = m1)
    (hr1 : x * (2:ℚ) ^ (52 - e1) - m1 < 1/2)
    (hpos2 : 0 < (m1 : ℚ) * (2:ℚ) ^ (e1 - 52) * 100)
    (hl2 : (2:ℚ) ^ e2 ≤ (m1 : ℚ) * (2:ℚ) ^ (e1 - 52) * 100)
    (hh2 : (m1 : ℚ) * (2:ℚ) ^ (e1 - 52) * 100 < (2:ℚ) ^ (e2 + 1))
    (hf2 : ⌊(m1 : ℚ) * (2:ℚ) ^ (e1 - 52) * 100 * (2:ℚ) ^ (52 - e2)⌋ = m2)
    (hr2 : (m1 : ℚ) * (2:ℚ) ^ (e1 - 52) * 100 * (2:ℚ) ^ (52 - e2) - m2 < 1/2)
    (hrnd : ⌊(m2 : ℚ) * (2:ℚ) ^ (e2 - 52) + 1/2⌋ = r) :
    round (fl64 (fl64 x * 100)) = r := by
  have h1 : fl64 x = (m1 : ℚ) * (2:ℚ) ^ (e1 - 52) :=
    fl64_eval x e1 m1 hx hl1 hh1 (roundNE_eval_lt _ m1 hf1 hr1)
  rw [h1]
  have h2 : fl64 ((m1 : ℚ) * (2:ℚ) ^ (e1 - 52) * 100) = (m2 : ℚ) * (2:ℚ) ^ (e2 - 52) :=
    fl64_eval _ e2 m2 hpos2 hl2 hh2 (roundNE_eval_lt _ m2 hf2 hr2)
  rw [h2, round_eq, hrnd]

/-- The binary64 percentage of 23/40: the exact value 57.5 is not
representable, the double is just below it, and `Math.round` gives 57
(exact round-half-up would give 58). -/
theorem pipe_23_40 : round (fl64 (fl64 ((23:ℚ)/40) * 100)) = 57 :=
  round_fl64_fl64_eval ((23:ℚ)/40) (-1) 5179139571476070 5 8092405580431359 57
    (by norm_num)
    (by norm_num [zpow_neg])
    (by norm_num)
    (by rw [Int.floor_eq_iff]; constructor <;> norm_num)
    (by norm_num)
    (by norm_num [zpow_neg])
    (by norm_num [zpow_neg])
    (by norm_num [zpow_neg])
    (by rw [Int.floor_eq_iff]; constructor <;> norm_num [zpow_neg])
    (by norm_num [zpow_neg])
    (by rw [Int.floor_eq_iff]; constructor <;> norm_num [zpow_neg])

/-- The binary64 percentage of 201/200: the double of
`(201/200)*100` is just below 100.5, and `Math.round` gives 100 even
though the completion count exceeds the lesson count. -/
theorem pipe_201_200 : round (fl64 (fl64 ((201:ℚ)/200) * 100)) = 100 :=
  round_fl64_fl64_eval ((201:ℚ)/200) 0 4526117625507348 6 7072058789855231 100
    (by norm_num)
    (by norm_num)
    (by norm_num)
    (by rw [Int.floor_eq_iff]; constructor <;> norm_num)
    (by norm_num)
    (by norm_num [zpow_neg])
    (by norm_num [zpow_neg])
    (by norm_num [zpow_neg])
    (by rw [Int.floor_eq_iff]; constructor <;> norm_num [zpow_neg])
    (by norm_num [zpow_neg])
    (by rw [Int.floor_eq_iff]; constructor <;> norm_num [zpow_neg])

/-- The binary64 percentage of 5/4 is exactly 125: every intermediate
value is representable. -/
theorem pipe_5_4 : round (fl64 (fl64 ((5:ℚ)/4) * 100)) = 125 :=
  round_fl64_fl64_eval ((5:ℚ)/4) 0 5629499534213120 6 8796093022208000 125
    (by norm_num)
    (by norm_num)
    (by norm_num)
    (by rw [Int.floor_eq_iff]; constructor <;> norm_num)
    (by norm_num)
    (by norm_num [zpow_neg])
    (by norm_num [zpow_neg])
    (by norm_num [zpow_neg])
    (by rw [Int.floor_eq_iff]; constructor <;> norm_num [zpow_neg])
    (by norm_num [zpow_neg])
    (by rw [Int.floor_eq_iff]; constructor <;> norm_num [zpow_neg])

/-- The binary64 percentage of 5/10 is exactly 50: every intermediate
value is representable. -/
theorem pipe_5_10 : round (fl64 (fl64 ((5:ℚ)/10) * 100)) = 50 :=
  round_fl64_fl64_eval ((5:ℚ)/10) (-1) 4503599627370496 5 7036874417766400 50
    (by norm_num)
    (by norm_num [zpow_neg])
    (by norm_num)
    (by rw [Int.floor_eq_iff]; constructor <;> norm_num)
    (by norm_num)
    (by norm_num [zpow_neg])
    (by norm_num [zpow_neg])
    (by norm_num [zpow_neg])
    (by rw [Int.floor_eq_iff]; constructor <;> norm_num [zpow_neg])
    (by norm_num [zpow_neg])
    (by rw [Int.floor_eq_iff]; constructor <;> norm_num [zpow_neg])

/-- Nearest-even rounding moves a value up by at most one half. -/
theorem roundNearestEven_le (x : ℚ) : (roundNearestEven x : ℚ) ≤ x + 1/2 := by
  have h1 : (⌊x⌋ : ℚ) ≤ x := Int.floor_le x
  unfold roundNearestEven
  split
  · linarith
  · split
    · push_cast
      linarith
    · split
      · linarith
      · rename_i hn1 hn2 _
        push_cast
        push_neg at hn1 hn2
        linarith

/-- Nearest-even rounding moves a value down by at most one half. -/
theorem le_roundNearestEven (x : ℚ) : x - 1/2 ≤ (roundNearestEven x : ℚ) := by
  have h2 : x < ⌊x⌋ + 1 := Int.lt_floor_add_one x
  unfold roundNearestEven
  split
  · linarith
  · split
    · push_cast
      linarith
    · split
      · rename_i hn1 hn2 _
        push_neg at hn1 hn2
        linarith
      · push_cast
        linarith

/-- Relative upper error bound of binary64 rounding on positive
inputs: `fl64 x` exceeds `x` by at most a factor `1 + 2^(-53)`. -/
theorem fl64_le (x : ℚ) (hx : 0 < x) : fl64 x ≤ x * (1 + 1/2^53) := by
  unfold fl64
  rw [if_neg hx.ne', if_neg (not_lt.mpr hx.le)]
  set e := Int.log 2 x with he
  have hzpos : (0:ℚ) < (2:ℚ) ^ (e - 52) := zpow_pos (by norm_num) _
  have hrne : (roundNearestEven (x * (2:ℚ) ^ (52 - e)) : ℚ) ≤ x * (2:ℚ) ^ (52 - e) + 1/2 :=
    roundNearestEven_le _
  have hlog : (2:ℚ) ^ e ≤ x := Int.zpow_log_le_self (by norm_num) hx
  have hmul := mul_le_mul_of_nonneg_right hrne hzpos.le
  have hid : (2:ℚ) ^ (52 - e) * (2:ℚ) ^ (e - 52) = 1 := by
    rw [← zpow_add₀ (by norm_num : (2:ℚ) ≠ 0)]
    norm_num
  have hhalf : (2:ℚ) ^ (e - 52) * (1/2) = (2:ℚ) ^ (e - 53) := by
    rw [show e - 53 = (e - 52) + (-1) by ring, zpow_add₀ (by norm_num : (2:ℚ) ≠ 0)]
    norm_num
  have hsmall : (2:ℚ) ^ (e - 53) ≤ x * (1/2^53) := by
    rw [show e - 53 = e + (-53 : ℤ) by ring, zpow_add₀ (by norm_num : (2:ℚ) ≠ 0),
      show (2:ℚ) ^ (-53 : ℤ) = 1/2^53 by norm_num [zpow_neg]]
    exact mul_le_mul_of_nonneg_right hlog (by positivity)
  calc (roundNearestEven (x * (2:ℚ) ^ (52 - e)) : ℚ) * (2:ℚ) ^ (e - 52)
      ≤ (x * (2:ℚ) ^ (52 - e) + 1/2) * (2:ℚ) ^ (e - 52) := hmul
    _ = x * ((2:ℚ) ^ (52 - e) * (2:ℚ) ^ (e - 52)) + (2:ℚ) ^ (e - 52) * (1/2) := by ring
    _ = x + (2:ℚ) ^ (e - 53) := by rw [hid, hhalf]; ring
    _ ≤ x + x * (1/2^53) := by linarith
    _ = x * (1 + 1/2^53) := by ring

/-- Relative lower error bound of binary64 rounding on positive
inputs: `fl64 x` falls short of `x` by at most a factor `1 - 2^(-53)`. -/
theorem fl64_ge (x : ℚ) (hx : 0 < x) : x * (1 - 1/2^53) ≤ fl64 x := by
  unfold fl64
  rw [if_neg hx.ne', if_neg (not_lt.mpr hx.le)]
  set e := Int.log 2 x with he
  have hzpos : (0:ℚ) < (2:ℚ) ^ (e - 52) := zpow_pos (by norm_num) _
  have hrne : x * (2:ℚ) ^ (52 - e) - 1/2 ≤ (roundNearestEven (x * (2:ℚ) ^ (52 - e)) : ℚ) :=
    le_roundNearestEven _
  have hlog : (2:ℚ) ^ e ≤ x := Int.zpow_log_le_self (by norm_num) hx
  have hmul := mul_le_mul_of_nonneg_right hrne hzpos.le
  have hid : (2:ℚ) ^ (52 - e) * (2:ℚ) ^ (e - 52) = 1 := by
    rw [← zpow_add₀ (by norm_num : (2:ℚ) ≠ 0)]
    norm_num
  have hhalf : (2:ℚ) ^ (e - 52) * (1/2) = (2:ℚ) ^ (e - 53) := by
    rw [show e - 53 = (e - 52) + (-1) by ring, zpow_add₀ (by norm_num : (2:ℚ) ≠ 0)]
    norm_num
  have hsmall : (2:ℚ) ^ (e - 53) ≤ x * (1/2^53) := by
    rw [show e - 53 = e + (-53 : ℤ) by ring, zpow_add₀ (by norm_num : (2:ℚ) ≠ 0),
      show (2:ℚ) ^ (-53 : ℤ) = 1/2^53 by norm_num [zpow_neg]]
    exact mul_le_mul_of_nonneg_right hlog (by positivity)
  calc x * (1 - 1/2^53) = x - x * (1/2^53) := by ring
    _ ≤ x - (2:ℚ) ^ (e - 53) := by linarith
    _ = x * ((2:ℚ) ^ (52 - e) * (2:ℚ) ^ (e - 52)) - (2:ℚ) ^ (e - 52) * (1/2) := by
        rw [hid, hhalf]; ring
    _ = (x * (2:ℚ) ^ (52 - e) - 1/2) * (2:ℚ) ^ (e - 52) := by ring
    _ ≤ (roundNearestEven (x * (2:ℚ) ^ (52 - e)) : ℚ) * (2:ℚ) ^ (e - 52) := hmul

/-- Binary64 rounding preserves nonnegativity. -/
theorem fl64_nonneg (x : ℚ) (hx : 0 ≤ x) : 0 ≤ fl64 x := by
  rcases hx.lt_or_eq with h | h
  · have hg := fl64_ge x h
    have hnn : (0:ℚ) ≤ x * (1 - 1/2^53) := mul_nonneg h.le (by norm_num)
    linarith
  · rw [← h]
    simp [fl64]

/-- For a ratio in `[0, 1]`, the binary64 percentage pipeline lands in
`[0, 100]`: the relative rounding errors are far too small to push the
value past the half-way points at the ends of the range. -/
theorem percent_pipeline_bounds (x : ℚ) (h0 : 0 ≤ x) (h1 : x ≤ 1) :
    0 ≤ round (fl64 (fl64 x * 100)) ∧ round (fl64 (fl64 x * 100)) ≤ 100 := by
  have hy1 : 0 ≤ fl64 x := fl64_nonneg x h0
  have hy1le : fl64 x ≤ 1 + 1/2^53 := by
    rcases h0.lt_or_eq with hxp | hxp
    · calc fl64 x ≤ x * (1 + 1/2^53) := fl64_le x hxp
        _ ≤ 1 * (1 + 1/2^53) := by nlinarith
        _ = 1 + 1/2^53 := by ring
    · rw [← hxp]
      simp [fl64]
      norm_num
  have hy2 : 0 ≤ fl64 x * 100 := by positivity
  have hy3 : 0 ≤ fl64 (fl64 x * 100) := fl64_nonneg _ hy2
  have hy3le : fl64 (fl64 x * 100) ≤ 100 * (1 + 1/2^53)^2 := by
    rcases hy2.lt_or_eq with hyp | hyp
    · calc fl64 (fl64 x * 100) ≤ (fl64 x * 100) * (1 + 1/2^53) := fl64_le _ hyp
        _ ≤ ((1 + 1/2^53) * 100) * (1 + 1/2^53) := by nlinarith
        _ = 100 * (1 + 1/2^53)^2 := by ring
    · rw [← hyp]
      simp [fl64]
      positivity
  have hnum : (100:ℚ) * (1 + 1/2^53)^2 + 1/2 < 101 := by norm_num
  constructor
  · rw [round_eq]
    exact Int.le_floor.mpr (by push_cast; linarith)
  · rw [round_eq]
    have hfl := Int.floor_lt.mpr
      (show fl64 (fl64 x * 100) + 1/2 < ((101:ℤ):ℚ) by push_cast; linarith)
    omega

/-- Concrete grading run of the worked example quiz: score 5 of 10,
binary64 percentage 50, pass false at threshold 60. -/
theorem exampleQuiz_grade_eval :
    submitQuizGrade exampleQuiz exampleAnswers = some exampleResult := by
  have hs : scoreQuiz exampleQuiz.questions exampleAnswers 0 = some 5 := by decide
  have hp : computePercentage 5 exampleQuiz.totalPoints = JsNum.val 50 := by
    show computePercentage 5 10 = JsNum.val 50
    unfold computePercentage
    rw [if_neg (by norm_num)]
    congr 1
    push_cast
    exact pipe_5_10
  unfold submitQuizGrade
  rw [hs]
  simp only [hp]
  decide

/-- Concrete grading run of the tie quiz: score 23 of 40, binary64
percentage 57, pass false at threshold 58. -/
theorem tieQuiz_grade_eval :
    submitQuizGrade tieQuiz tieAnswers = some tieResult := by
  have hs : scoreQuiz tieQuiz.questions tieAnswers 0 = some 23 := by decide
  have hp : computePercentage 23 tieQuiz.totalPoints = JsNum.val 57 := by
    show computePercentage 23 40 = JsNum.val 57
    unfold computePercentage
    rw [if_neg (by norm_num)]
    congr 1
    push_cast
    exact pipe_23_40
  unfold submitQuizGrade
  rw [hs]
  simp only [hp]
  decide

/-- Concrete progress value at 5 completions over 4 lessons: 125. -/
theorem progressPercent_eval_5_4 : progressPercent 5 4 = 125 := by
  unfold progressPercent
  push_cast
  exact pipe_5_4

/-- Concrete progress value at 201 completions over 200 lessons: 100,
because the binary64 value of `(201/200)*100` is just below 100.5. -/
theorem progressPercent_eval_201_200 : progressPercent 201 200 = 100 := by
  unfold progressPercent
  push_cast
  exact pipe_201_200

/-! Claim theorems. -/

/-- C1 (counterexample): the claim states that multiple-choice grading
coerces the submitted and stored answers to integers, so a submitted
string numeral "2" against the numeric correct answer 2 is judged
correct.  The scoring loop of `submitQuiz` actually compares with strict
equality: the string-versus-number submission is awarded 0 of the
question's 5 points. -/
theorem mc_string_numeral_not_coerced_cex :
    serviceQuestionPoints [(("q1" : String), JsVal.str ("2"))] mcQuestion2 0 = some 0 ∧
    mcQuestion2.points = 5 ∧ mcQuestion2.correctAnswer = JsVal.num 2 := by
  decide

/-- C1 (amended): multiple-choice grading in `submitQuiz` compares the
submitted answer to the stored correct answer with JavaScript strict
equality — no integer coercion — so a string answer never matches a
numeric correct answer (and vice versa); a missing, non-numeric or
unparseable answer is judged incorrect without any error being raised
(the multiple-choice branch always returns a value). -/
theorem mc_graded_by_strict_equality (answers : List (String × JsVal))
    (q : QuizQuestion) (index : Nat) (hq : q.qtype = QType.multipleChoice) :
    serviceQuestionPoints answers q index =
      some (if Option.any (fun v => jsStrictEq v q.correctAnswer)
              (lookupAnswer answers (questionKey q index))
            then q.points else 0) ∧
    ∀ (s : String) (n : Int), jsStrictEq (JsVal.str s) (JsVal.num n) = false ∧
      jsStrictEq (JsVal.num n) (JsVal.str s) = false := by
  constructor
  · simp only [serviceQuestionPoints, hq]
    cases hv : lookupAnswer answers (questionKey q index) with
    | none => simp [Option.any]
    | some v =>
      by_cases he : jsStrictEq v q.correctAnswer <;> simp [Option.any, he]
  · intro s n
    exact ⟨rfl, rfl⟩

/-- C1 (witness): the amended characterization evaluated at a concrete
multiple-choice question and numeric submission. -/
theorem mc_graded_by_strict_equality_witness :
    serviceQuestionPoints agreeAnswers mcQuestion2 0 =
      some (if Option.any (fun v => jsStrictEq v mcQuestion2.correctAnswer)
              (lookupAnswer agreeAnswers (questionKey mcQuestion2 0))
            then mcQuestion2.points else 0) :=
  (mc_graded_by_strict_equality agreeAnswers mcQuestion2 0 (by decide)).1

/-- C2: the claim that grading is total is right and the code is wrong:
the text branch of `submitQuiz` evaluates `studentAnswer.toString()`
without a missing-answer guard, so a quiz containing a free-text
question graded against a submission map with no entry for it throws a
`TypeError` (embedded as `none`) instead of scoring the question 0 —
contradicting the guarded sibling implementation `getQuestionPoints`,
which returns 0 on the same input. -/
theorem grading_throws_on_missing_text_answer :
    submitQuizGrade parisQuiz [] = none ∧
    serviceQuestionPoints [] parisQuestion 0 = none ∧
    getQuestionPoints [] parisQuestion 0 = 0 := by
  decide

/-- C3 (counterexample): the claim states that a quiz whose
`totalPoints` is 0 grades to percentage 0.  The code divides by the zero
total: `Math.round((0 / 0) * 100)` is `NaN`, which is stored as the
percentage — a defined value, but not 0. -/
theorem zero_total_points_percentage_nan_cex :
    submitQuizGrade zeroQuiz [] = some zeroQuizResult ∧
    zeroQuizResult.percentage = JsNum.nan ∧
    JsNum.nan ≠ JsNum.val 0 := by
  decide

/-- C3 (amended): for a quiz with `totalPoints = 0`, grading completes
without an arithmetic error, but the resulting percentage is `NaN` when
the score is 0 (and an infinity otherwise) — never the integer 0 — and a
zero score yields a failed pass flag because `NaN >= passingScore` is
false. -/
theorem zero_total_points_percentage_nan (quiz : Quiz)
    (answers : List (String × JsVal)) (r : GradingResult)
    (h0 : quiz.totalPoints = 0) (h : submitQuizGrade quiz answers = some r) :
    r.percentage = (if r.score = 0 then JsNum.nan
      else if 0 < r.score then JsNum.inf else JsNum.negInf) ∧
    r.percentage ≠ JsNum.val 0 ∧
    (r.score = 0 → r.isPassed = false) := by
  unfold submitQuizGrade at h
  cases hs : scoreQuiz quiz.questions answers 0 with
  | none => rw [hs] at h; exact absurd h (by simp)
  | some score =>
    rw [hs] at h
    injection h with h
    subst h
    refine ⟨?_, ?_, ?_⟩
    · simp [computePercentage, h0]
    · simp only [computePercentage, h0, if_pos]
      split
      · simp
      · split <;> simp
    · intro hsc
      simp only at hsc
      subst hsc
      simp [computePercentage, h0, jsGe]

/-- C3 (witness): the amended statement evaluated at the concrete
zero-total quiz. -/
theorem zero_total_points_percentage_nan_witness :
    zeroQuizResult.percentage = (if zeroQuizResult.score = 0 then JsNum.nan
      else if 0 < zeroQuizResult.score then JsNum.inf else JsNum.negInf) ∧
    zeroQuizResult.percentage ≠ JsNum.val 0 ∧
    (zeroQuizResult.score = 0 → zeroQuizResult.isPassed = false) :=
  zero_total_points_percentage_nan zeroQuiz [] zeroQuizResult (by decide) (by decide)

/-- C4 (counterexample): the claim states the progress computation is
clamped so that no value above 100 is produced.  `updateCourseProgress`
applies no clamp: with 5 completions against 4 lessons it computes and
stores 125. -/
theorem progress_not_clamped_cex :
    progressPercent 5 4 = 125 ∧ progressPercent 5 4 ≠ 100 := by
  rw [progressPercent_eval_5_4]
  norm_num

/-- C4 (amended): `updateCourseProgress` writes the binary64
`Math.round((completed / total) * 100)` with no clamping, so values
above 100 are produced and stored — 5 completions over 4 lessons store
125 — though not at every overshoot, since binary64 rounding can land
the value back on 100, as 201 completions over 200 lessons do. -/
theorem progress_unclamped_round (st : Store) (courseId studentId : String)
    (e : Enrollment) (hE : getEnrollment st courseId studentId = some e)
    (hL : countLessons st courseId ≠ 0) :
    updateCourseProgress st courseId studentId =
      updateProgress st e.id
        (progressPercent (countCompletions st courseId studentId)
          (countLessons st courseId)) ∧
    100 < progressPercent 5 4 ∧
    progressPercent 201 200 = 100 := by
  refine ⟨?_, ?_, progressPercent_eval_201_200⟩
  · unfold updateCourseProgress
    rw [hE]
    exact if_neg hL
  · rw [progressPercent_eval_5_4]
    norm_num

/-- C4 (witness): the unclamped characterization evaluated at a
concrete store. -/
theorem progress_unclamped_round_witness :
    (updateCourseProgress storeWithLessons ("course1") ("stu1") =
      updateProgress storeWithLessons enrA.id
        (progressPercent (countCompletions storeWithLessons ("course1") ("stu1"))
          (countLessons storeWithLessons ("course1")))) ∧
    100 < progressPercent 5 4 ∧
    progressPercent 201 200 = 100 :=
  progress_unclamped_round storeWithLessons ("course1") ("stu1") enrA
    (by decide) (by decide)

/-- C5 (counterexample): the claim states the stored percentage is the
exact round-half-up of `score / totalPoints × 100` and the pass flag
compares it to `passingScore`.  At score 23 of 40 the binary64 value of
`(23/40)*100` is just below 57.5: the code stores percentage 57 and
fails the submission at threshold 58, while the claimed round-half-up
gives 58 and would pass it. -/
theorem grading_round_half_up_tie_cex :
    submitQuizGrade tieQuiz tieAnswers = some tieResult ∧
    tieResult.percentage = JsNum.val 57 ∧
    tieResult.isPassed = false ∧
    jsRoundHalfUp (100 * 23) 40 = 58 := by
  refine ⟨tieQuiz_grade_eval, by decide, by decide, by decide⟩

/-- C5 (amended): for a quiz with positive `totalPoints`, whenever
`submitQuiz` completes, the stored percentage is
`Math.round((score / totalPoints) * 100)` evaluated in binary64 — which
agrees with exact round-half-up except at ties the doubles cannot
represent, such as 23/40 — and the pass flag is set exactly when that
stored percentage reaches `passingScore`.  The spec's worked example
(5 of 10 points, threshold 60) is tie-free and still grades to
percentage 50, pass false. -/
theorem grading_percentage_binary64 (quiz : Quiz)
    (answers : List (String × JsVal)) (r : GradingResult)
    (hp : 0 < quiz.totalPoints) (h : submitQuizGrade quiz answers = some r) :
    r.percentage =
      JsNum.val (round (fl64 (fl64 ((r.score : ℚ) / (quiz.totalPoints : ℚ)) * 100))) ∧
    (r.isPassed = true ↔
      quiz.passingScore ≤
        round (fl64 (fl64 ((r.score : ℚ) / (quiz.totalPoints : ℚ)) * 100))) := by
  unfold submitQuizGrade at h
  cases hs : scoreQuiz quiz.questions answers 0 with
  | none => rw [hs] at h; exact absurd h (by simp)
  | some score =>
    rw [hs] at h
    injection h with h
    subst h
    have hperc : computePercentage score quiz.totalPoints =
        JsNum.val (round (fl64 (fl64 ((score : ℚ) / (quiz.totalPoints : ℚ)) * 100))) := by
      simp [computePercentage, hp.ne']
    refine ⟨?_, ?_⟩
    · simp only [hperc]
    · simp [hperc, jsGe]

/-- C5 (witness): the worked example — two questions worth 5 points
each, passing score 60, one correct answer — grades to score 5,
percentage 50, pass false, and satisfies the binary64 percentage/pass
characterization. -/
theorem grading_percentage_binary64_witness :
    submitQuizGrade exampleQuiz exampleAnswers = some exampleResult ∧
    exampleResult = { score := 5, percentage := JsNum.val 50, isPassed := false } ∧
    (exampleResult.percentage =
      JsNum.val (round (fl64 (fl64 ((exampleResult.score : ℚ) / (exampleQuiz.totalPoints : ℚ)) * 100))) ∧
    (exampleResult.isPassed = true ↔
      exampleQuiz.passingScore ≤
        round (fl64 (fl64 ((exampleResult.score : ℚ) / (exampleQuiz.totalPoints : ℚ)) * 100)))) :=
  ⟨exampleQuiz_grade_eval, by decide,
   grading_percentage_binary64 exampleQuiz exampleAnswers exampleResult
     (by decide) exampleQuiz_grade_eval⟩

/-- C6: when the course has no lessons, `updateCourseProgress` returns
before writing anything: the whole store — in particular the
enrollment's previously stored progress — is left unchanged. -/
theorem zero_lessons_leaves_store_unchanged (st : Store)
    (courseId studentId : String) (h : countLessons st courseId = 0) :
    updateCourseProgress st courseId studentId = st := by
  unfold updateCourseProgress
  split
  · rfl
  · rw [if_pos h]

/-- C6 (witness): a store with an enrollment at progress 37, a stale
completion, and no lessons is returned untouched. -/
theorem zero_lessons_leaves_store_unchanged_witness :
    updateCourseProgress storeNoLessons ("course1") ("stu1") = storeNoLessons :=
  zero_lessons_leaves_store_unchanged storeNoLessons ("course1") ("stu1") (by decide)

/-- C7: for a quiz whose stored total is positive and equals the sum of
its questions' positive point values, any completed grading run yields a
percentage between 0 and 100. -/
theorem grading_percentage_in_range (quiz : Quiz)
    (answers : List (String × JsVal)) (r : GradingResult)
    (hp : 0 < quiz.totalPoints)
    (hpos : ∀ q ∈ quiz.questions, 0 < q.points)
    (hsum : sumPoints quiz.questions = quiz.totalPoints)
    (h : submitQuizGrade quiz answers = some r) :
    percentInRange r.percentage := by
  unfold submitQuizGrade at h
  cases hs : scoreQuiz quiz.questions answers 0 with
  | none => rw [hs] at h; exact absurd h (by simp)
  | some score =>
    rw [hs] at h
    injection h with h
    subst h
    have hb := scoreQuiz_bounds quiz.questions answers 0 score
      (fun q hq => le_of_lt (hpos q hq)) hs
    have hscore_le : score ≤ quiz.totalPoints := hsum ▸ hb.2
    have hperc : computePercentage score quiz.totalPoints =
        JsNum.val (round (fl64 (fl64 ((score : ℚ) / (quiz.totalPoints : ℚ)) * 100))) := by
      simp [computePercentage, hp.ne']
    simp only [hperc]
    have htpq : (0 : ℚ) < (quiz.totalPoints : ℚ) := by exact_mod_cast hp
    have hx0 : (0 : ℚ) ≤ (score : ℚ) / (quiz.totalPoints : ℚ) :=
      div_nonneg (by exact_mod_cast hb.1) htpq.le
    have hx1 : (score : ℚ) / (quiz.totalPoints : ℚ) ≤ 1 :=
      (div_le_one htpq).mpr (by exact_mod_cast hscore_le)
    show 0 ≤ round (fl64 (fl64 ((score : ℚ) / (quiz.totalPoints : ℚ)) * 100)) ∧
      round (fl64 (fl64 ((score : ℚ) / (quiz.totalPoints : ℚ)) * 100)) ≤ 100
    exact percent_pipeline_bounds _ hx0 hx1

/-- C7 (witness): the range property applied to the worked example quiz
and its submission. -/
theorem grading_percentage_in_range_witness :
    percentInRange exampleResult.percentage :=
  grading_percentage_in_range exampleQuiz exampleAnswers exampleResult
    (by decide) (by decide) (by decide) exampleQuiz_grade_eval

/-- C8: `createQuiz` stores `totalPoints` as the sum of the given
questions' points, and `updateQuiz` recomputes it whenever the update
carries a question set, so a stored quiz satisfying the invariant still
satisfies it after any update. -/
theorem total_points_invariant :
    (∀ input : QuizInput,
      (createQuiz input).totalPoints = sumPoints (createQuiz input).questions) ∧
    (∀ (quiz : Quiz) (updates : QuizUpdate),
      quiz.totalPoints = sumPoints quiz.questions →
      (updateQuiz quiz updates).totalPoints =
        sumPoints (updateQuiz quiz updates).questions) := by
  constructor
  · intro input
    rfl
  · intro quiz updates hinv
    unfold updateQuiz
    cases updates.questions with
    | none => simpa using hinv
    | some qs => rfl

/-- C8 (witness): the invariant evaluated at a concrete creation and at
a concrete update that replaces the question set. -/
theorem total_points_invariant_witness :
    (createQuiz sampleQuizInput).totalPoints =
      sumPoints (createQuiz sampleQuizInput).questions ∧
    (updateQuiz sampleQuiz sampleUpdate).totalPoints =
      sumPoints (updateQuiz sampleQuiz sampleUpdate).questions :=
  ⟨total_points_invariant.1 sampleQuizInput,
   total_points_invariant.2 sampleQuiz sampleUpdate (by decide)⟩

/-- C9 (counterexample): the claim states the component's
`getQuestionPoints` and the service's scoring loop agree on every input.
On a multiple-choice question with numeric correct answer 2 and the
submitted string "2", the component coerces and awards the 5 points
while the service's strict comparison awards 0. -/
theorem component_service_grading_disagree_cex :
    getQuestionPoints [(("q1" : String), JsVal.str ("2"))] mcQuestion2 0 = 5 ∧
    serviceQuestionPoints [(("q1" : String), JsVal.str ("2"))] mcQuestion2 0 = some 0 := by
  decide

/-- C9 (amended): the two grading implementations agree on the inputs
where no coercion or guard fires — a multiple-choice question whose
submitted and stored answers are both numbers, or a free-text question
whose submitted answer is present and truthy — but not in general: they
disagree on mixed string/number multiple-choice answers and on missing
free-text answers (where the service throws and the component returns
0). -/
theorem component_service_grading_agree (answers : List (String × JsVal))
    (q : QuizQuestion) (index : Nat)
    (hcase :
      (q.qtype = QType.multipleChoice ∧
        (∃ a : Int, lookupAnswer answers (questionKey q index) = some (JsVal.num a)) ∧
        (∃ b : Int, q.correctAnswer = JsVal.num b)) ∨
      (q.qtype = QType.text ∧
        ∃ v : JsVal, lookupAnswer answers (questionKey q index) = some v ∧
          jsTruthy v = true)) :
    serviceQuestionPoints answers q index =
      some (getQuestionPoints answers q index) := by
  rcases hcase with ⟨hq, ⟨a, ha⟩, ⟨b, hb⟩⟩ | ⟨hq, v, hv, htr⟩
  · simp only [serviceQuestionPoints, getQuestionPoints, hq, ha, hb,
      jsStrictEq, studentAnswerAsNumber, answerAsNumber, optNumEq]
    by_cases hab : a = b
    · simp [hab]
    · simp [hab]
  · simp only [serviceQuestionPoints, getQuestionPoints, hq, hv, htr]
    by_cases hc :
        (jsToString v).toLower.trim == (jsToString q.correctAnswer).toLower.trim
    · simp [hc]
    · simp [hc]

/-- C9 (witness): agreement evaluated at the multiple-choice question
with a numeric submission on both sides. -/
theorem component_service_grading_agree_witness :
    serviceQuestionPoints agreeAnswers mcQuestion2 0 =
      some (getQuestionPoints agreeAnswers mcQuestion2 0) :=
  component_service_grading_agree agreeAnswers mcQuestion2 0
    (Or.inl ⟨by decide, ⟨2, by decide⟩, ⟨2, by decide⟩⟩)

/-- C10: when a completion record already exists for the (lesson,
student) pair, `completeLesson` returns that record's id and the store is
returned untouched: no second completion is added and no progress
recomputation happens. -/
theorem complete_lesson_idempotent (st : Store)
    (lessonId courseId studentId freshId : String) (c : LessonCompletion)
    (h : getLessonCompletion st lessonId studentId = some c) :
    completeLesson st lessonId courseId studentId freshId = (c.id, st) := by
  unfold completeLesson
  rw [h]

/-- C10 (witness): repeating the completion of lesson l1 by student stu1
returns the existing record's id and leaves the store unchanged. -/
theorem complete_lesson_idempotent_witness :
    completeLesson storeWithLessons ("l1") ("course1") ("stu1") ("fresh9") =
      (compA.id, storeWithLessons) :=
  complete_lesson_idempotent storeWithLessons ("l1") ("course1") ("stu1") ("fresh9")
    compA (by decide)

end ImpulseTech
